import Mathlib

/-!
Verification development for the airflow/databricks remediation agent.

Shallow embedding of the repository's core logic:
* `rca_engine.py`  — `RCAEngine.analyze` and its pattern table (`rca_patterns`),
  via a small backtracking pattern matcher (`matchFuel` / `searchGroups`)
  modelling Python `re.search(..., re.IGNORECASE)` restricted to the regex
  constructs actually used by the repository (literal characters, `.`, `.*`,
  character classes `[..]` / `[^..]` with `+` / `*`, and the capturing
  group `(\d+)`).
* `policy.py`      — `PolicyGuardrails` (`is_dag_allowed`, `validate_rerun`,
  `check_safety`).
* `tools.py`       — `_extract_run_id`, `generate_rca`, `rerun_failed_pipeline`,
  with the two network clients abstracted as an environment of collaborator
  functions (`Env`), mirroring the exception-handling behaviour of the tools
  layer (a raising collaborator call is modelled as `Except.error`).
-/

/-- Pattern items of the small regex language used by the repository.
`chr` is a literal character (matched case-insensitively, modelling
`re.IGNORECASE`); `anyc` is `.`; `starAny` is greedy `.*`; `oneCls`/`starCls`
are one occurrence / a greedy `*` repetition of a character class (negated
when the flag is true); `gdOne` followed by `gdStar` encodes the greedy
capturing group `(\d+)` (one mandatory digit, then greedily more digits,
all appended to the capture). -/
inductive RItem where
  | chr (c : Char)
  | anyc
  | starAny
  | oneCls (cs : List Char) (neg : Bool)
  | starCls (cs : List Char) (neg : Bool)
  | gdOne
  | gdStar
deriving Repr, DecidableEq

/-- Membership of a character in a (possibly negated) character class.
The classes appearing in the repository contain no letters, so case folding
is irrelevant for them. -/
def inCls (d : Char) (cs : List Char) (neg : Bool) : Bool :=
  if neg then !(cs.contains d) else cs.contains d

/-- Backtracking matcher for a sequence of pattern items against the
character list `s`, anchored at the start of `s`.  Returns the remaining
suffix after the match together with the capture of the `(\d+)` group, if
the group participated.  Greedy quantifiers try the longer alternative
first and backtrack on failure, as Python's `re` does.  The `fuel`
parameter makes the recursion structural; every recursive call decreases
the lexicographic measure (length of `s`, length of `items`), so any fuel
of at least `(s.length + 1) * (items.length + 1)` is enough for the fuel
never to run out (callers below always supply that much). -/
def matchFuel : Nat → List RItem → List Char → Option (List Char) →
    Option (List Char × Option (List Char))
  | 0, _, _, _ => none
  | Nat.succ f, items, s, cap =>
    match items with
    | [] => some (s, cap)
    | RItem.chr c :: rest =>
      match s with
      | [] => none
      | d :: s' => if c.toLower = d.toLower then matchFuel f rest s' cap else none
    | RItem.anyc :: rest =>
      match s with
      | [] => none
      | _ :: s' => matchFuel f rest s' cap
    | RItem.starAny :: rest =>
      match s with
      | [] => matchFuel f rest [] cap
      | _ :: s' =>
        match matchFuel f (RItem.starAny :: rest) s' cap with
        | some r => some r
        | none => matchFuel f rest s cap
    | RItem.oneCls cs neg :: rest =>
      match s with
      | [] => none
      | d :: s' => if inCls d cs neg then matchFuel f rest s' cap else none
    | RItem.starCls cs neg :: rest =>
      match s with
      | [] => matchFuel f rest [] cap
      | d :: s' =>
        if inCls d cs neg then
          match matchFuel f (RItem.starCls cs neg :: rest) s' cap with
          | some r => some r
          | none => matchFuel f rest s cap
        else matchFuel f rest s cap
    | RItem.gdOne :: rest =>
      match s with
      | [] => none
      | d :: s' =>
        if d.isDigit then matchFuel f rest s' (some (cap.getD [] ++ [d])) else none
    | RItem.gdStar :: rest =>
      match s with
      | [] => matchFuel f rest [] cap
      | d :: s' =>
        if d.isDigit then
          match matchFuel f (RItem.gdStar :: rest) s' (some (cap.getD [] ++ [d])) with
          | some r => some r
          | none => matchFuel f rest s cap
        else matchFuel f rest s cap

/-- Anchored match of the pattern at the start of `s` (with sufficient
fuel): on success, return the matched text (`group(0)`, the consumed
portion of `s`) and the capture of the digit group (`group(1)`), if any. -/
def matchAt (p : List RItem) (s : List Char) : Option (List Char × Option (List Char)) :=
  match matchFuel ((s.length + 1) * (p.length + 1)) p s none with
  | some (rem, cap) => some (s.take (s.length - rem.length), cap)
  | none => none

/-- Model of `re.search(p, s, re.IGNORECASE)`: try to match at each start
position from left to right; the first position where the anchored matcher
succeeds wins. -/
def searchGroups (p : List RItem) : List Char → Option (List Char × Option (List Char))
  | [] => matchAt p []
  | d :: s' =>
    match matchAt p (d :: s') with
    | some r => some r
    | none => searchGroups p s'

/-- Literal text as a sequence of (case-insensitive) character items. -/
def lits (s : String) : List RItem := s.data.map RItem.chr

/-- Pattern table of `RCAEngine.__init__` (`src/rca_engine.py`), in the
declared (insertion) order of the Python dict; within each category the
patterns appear in declared order. -/
def rca_patterns : List (String × List (List RItem)) :=
  [("SchemaMismatch",
     [lits "AnalysisException: cannot resolve",
      lits "AnalysisException:" ++ [RItem.starAny] ++ lits "column" ++
        [RItem.starAny] ++ lits "not found",
      lits "Schema variance detected"]),
   ("OOM",
     [lits "java" ++ [RItem.anyc] ++ lits "lang" ++ [RItem.anyc] ++
        lits "OutOfMemoryError",
      lits "Container killed by YARN for exceeding memory limits",
      lits "ExecutorLostFailure",
      lits "Total size of serialized results" ++ [RItem.starAny] ++
        lits "is bigger than"]),
   ("Permissions",
     [lits "AccessDeniedException",
      lits "403 Forbidden",
      lits "does not have permission"]),
   ("DataQuality",
     [lits "Constraint violation",
      lits "NullPointerException" ++ [RItem.starAny] ++ lits "input row"]),
   ("Timeout",
     [lits "TimeoutException",
      lits "Heartbeat missing"])]

/-- First matching pattern of a within-category pattern list: returns the
matched text of the first pattern (in declared order) that matches
anywhere in `s`. -/
def firstPatMatch (pats : List (List RItem)) (s : List Char) : Option (List Char) :=
  match pats with
  | [] => none
  | p :: rest =>
    match searchGroups p s with
    | some (g0, _) => some g0
    | none => firstPatMatch rest s

/-- Scan of the whole category table in declared order (the nested loop of
`RCAEngine.analyze`): returns the first category (and the matched text)
whose pattern list has a match. -/
def firstCatMatch : List (String × List (List RItem)) → List Char →
    Option (String × List Char)
  | [], _ => none
  | (cat, pats) :: rest, s =>
    match firstPatMatch pats s with
    | some g0 => some (cat, g0)
    | none => firstCatMatch rest s

/-- Recommendation table of `RCAEngine._recommend` (`src/rca_engine.py`). -/
def recommendations : List (String × String) :=
  [("SchemaMismatch", "Check upstream schema changes. Update usage in Silver/Gold layers."),
   ("OOM", "Increase cluster memory (scale up) or improve partitioning (repartition)."),
   ("Permissions", "Check Service Principal IAM roles."),
   ("DataQuality", "Check for null primary keys or constraint violations."),
   ("Timeout", "Check network connectivity or increase timeout settings.")]

/-- Embedding of `RCAEngine._recommend`: dictionary lookup with the generic
fallback string. -/
def _recommend (error_type : String) : String :=
  (recommendations.lookup error_type).getD "Investigate manually."

/-- Result value of `RCAEngine.analyze`.  The Python code returns a dict
whose keys differ between the three return sites; the optional fields
model exactly the keys each return site populates. -/
structure ClassificationResult where
  root_cause : String
  confidence : String
  evidence : Option String := none
  recommendation : Option String := none
  details : Option String := none
deriving Repr, DecidableEq

/-- Embedding of `RCAEngine.analyze` (`src/rca_engine.py`): the empty input
short-circuit, then the nested scan over the pattern table, then the
no-match fallback. -/
def analyze (log_text : String) : ClassificationResult :=
  if log_text = "" then
    { root_cause := "Unknown", confidence := "Low",
      details := some "No logs provided for analysis." }
  else
    match firstCatMatch rca_patterns log_text.data with
    | some (cat, g0) =>
      { root_cause := cat, confidence := "High",
        evidence := some (String.mk g0),
        recommendation := some (_recommend cat) }
    | none =>
      { root_cause := "Unknown", confidence := "Low",
        details := some "No specific error pattern matched. Manual review required." }

/-- Character class `[=: ]` from the run-id patterns. -/
def clsEqColonSpace : List Char := ['=', ':', ' ']

/-- Digit characters, the class `\d`. -/
def clsDigits : List Char := ['0', '1', '2', '3', '4', '5', '6', '7', '8', '9']

/-- Character class from the fourth run-id pattern: double quote, single
quote (character 39), colon, and the whitespace class `\s`
(space, tab, newline, carriage return, vertical tab 0x0b, form feed 0x0c). -/
def clsQuoteColonWs : List Char :=
  ['"', Char.ofNat 39, ':', ' ', '\t', '\n', '\r', Char.ofNat 11, Char.ofNat 12]

/-- The capturing group `(\d+)`. -/
def groupDigitsItems : List RItem := [RItem.gdOne, RItem.gdStar]

/-- The four run-id patterns of `_extract_run_id` (`src/tools.py`), in
declared order. -/
def extract_patterns : List (List RItem) :=
  [lits "run_id" ++
     [RItem.oneCls clsEqColonSpace false, RItem.starCls clsEqColonSpace false] ++
     groupDigitsItems,
   lits "Run ID" ++
     [RItem.oneCls clsEqColonSpace false, RItem.starCls clsEqColonSpace false] ++
     groupDigitsItems,
   lits "Submitted run" ++ [RItem.starCls clsDigits true] ++ groupDigitsItems,
   lits "databricks run now response" ++ [RItem.starAny] ++ lits "run_id" ++
     [RItem.oneCls clsQuoteColonWs false, RItem.starCls clsQuoteColonWs false] ++
     groupDigitsItems]

/-- First pattern (in declared order) that matches anywhere in `s`,
returning its digit capture (the loop body of `_extract_run_id`). -/
def firstCapMatch : List (List RItem) → List Char → Option (Option (List Char))
  | [], _ => none
  | p :: rest, s =>
    match searchGroups p s with
    | some (_, cap) => some cap
    | none => firstCapMatch rest s

/-- Numeric value of a digit string, the effect of Python `int` on the
captured digits of `match.group(1)`. -/
def digitsVal (cs : List Char) : Nat :=
  cs.foldl (fun a c => a * 10 + (c.toNat - 48)) 0

/-- Embedding of `_extract_run_id` (`src/tools.py`): try the patterns in
order; on the first match return the integer value of the captured digit
group.  Every pattern in the table contains the digit group, so a match
always carries a capture; the `some none` branch is unreachable for this
table. -/
def _extract_run_id (log_text : String) : Option Nat :=
  match firstCapMatch extract_patterns log_text.data with
  | some (some cap) => some (digitsVal cap)
  | some none => none
  | none => none

/-- Configuration state of `PolicyGuardrails` (`src/policy.py`), as loaded
by `__init__` from the environment: the rerun budget, the allowlist
(a comma-separated env string, parsed by `_parse_list`), and the fixed
blocked-action keyword list. -/
structure PolicyGuardrails where
  max_reruns : Int
  allowlist_dags : List String
  blocked_actions : List String := ["delete", "drop", "truncate"]
deriving Repr, DecidableEq

/-- Embedding of `PolicyGuardrails._parse_list`: split a comma-separated
string, strip each item, keep the nonempty ones; the empty string gives
the empty list. -/
def _parse_list (env_str : String) : List String :=
  if env_str = "" then []
  else ((env_str.split (fun c => c = ',')).map String.trim).filter (fun t => t ≠ "")

/-- Embedding of `PolicyGuardrails.is_dag_allowed`: an empty allowlist
denies every dag id (fail-closed); otherwise membership decides. -/
def is_dag_allowed (p : PolicyGuardrails) (dag_id : String) : Bool :=
  if p.allowlist_dags.isEmpty then false
  else p.allowlist_dags.contains dag_id

/-- The decision value returned by `validate_rerun`
(`{ "allowed": ..., "reason": ... }`). -/
structure RerunDecision where
  allowed : Bool
  reason : String
deriving Repr, DecidableEq

/-- The root causes that `validate_rerun` treats as needing manual
intervention (its local `unsafe_causes` list). -/
def unsafe_causes : List String := ["SchemaMismatch", "Permissions", "DataQuality"]

/-- Embedding of `PolicyGuardrails.validate_rerun` (`src/policy.py`):
allowlist gate, then attempt-budget gate, then root-cause gate, then the
affirmative decision, with the reason strings of the source. -/
def validate_rerun (p : PolicyGuardrails) (dag_id : String)
    (current_try_number : Int) (rca_root_cause : String) : RerunDecision :=
  if ¬ is_dag_allowed p dag_id then
    { allowed := false,
      reason := "DAG '" ++ dag_id ++ "' is not in the allowlist." }
  else if current_try_number > p.max_reruns then
    { allowed := false,
      reason := "Max reruns reached (" ++ toString current_try_number ++ " > " ++
        toString p.max_reruns ++ ")." }
  else if unsafe_causes.contains rca_root_cause then
    { allowed := false,
      reason := "Root cause '" ++ rca_root_cause ++ "' requires manual intervention." }
  else
    { allowed := true, reason := "Safe to rerun." }

/-- Boolean test for `needle` being a leading segment of `hay`. -/
def startsWithList (needle hay : List Char) : Bool :=
  match needle, hay with
  | [], _ => true
  | _ :: _, [] => false
  | c :: t, d :: s => c = d && startsWithList t s

/-- Boolean substring test on character lists, the model of Python's
`needle in hay` on strings: scan every start position. -/
def containsList (needle : List Char) : List Char → Bool
  | [] => startsWithList needle []
  | d :: s' => startsWithList needle (d :: s') || containsList needle s'

/-- Embedding of `PolicyGuardrails.check_safety` (`src/policy.py`): reject
exactly the tool names whose lowercasing contains the substring
`delete`; the `params` argument is accepted and ignored, as in the
source. -/
def check_safety (tool_name : String) (params : List (String × String)) : Bool :=
  if containsList ("delete".data) (tool_name.data.map Char.toLower) then false
  else true

/-- One element of the failed-task list the pipeline-orchestrator client
returns (`AirflowClient.get_failed_tasks`); `generate_rca` reads exactly
the `task_id` and `try_number` keys of each task dict. -/
structure FailedTask where
  task_id : String
  try_number : Int
deriving Repr, DecidableEq

/-- The job-runner output dict (`DatabricksClient.get_run_output`);
`generate_rca` reads the `error_trace` and `error` keys, each possibly
absent. -/
structure RunOutput where
  error_trace : Option String := none
  error : Option String := none
deriving Repr, DecidableEq

/-- Collaborator environment of the tools layer (`src/tools.py`): the
external calls `generate_rca` and `rerun_failed_pipeline` perform.
An `Except.error` value models the call raising, which the tools layer
catches (`airflow_get_failed_tasks` turns it into an error-marker entry;
`rerun_failed_pipeline` turns a trigger failure into an error payload).
`get_task_log` is total because `AirflowClient.get_task_log` catches its
own request errors and returns sentinel text; likewise
`DatabricksClient.get_run_output` returns an error dict instead of
raising. -/
structure Env where
  get_failed_tasks : String → String → Except String (List FailedTask)
  get_task_log : String → String → String → Int → String
  get_run_output : Nat → RunOutput
  trigger_dag_run : String → List (String × String) → Except String String

/-- The Python expression
`db_out_dict.get("error_trace", "") or db_out_dict.get("error", "")`:
the first key if present and nonempty, otherwise the second (defaulting
to the empty string). -/
def errorTraceOf (o : RunOutput) : String :=
  let t := o.error_trace.getD ""
  if t ≠ "" then t else o.error.getD ""

/-- One entry of the diagnosis report (the `task_analysis` dict built by
`generate_rca`): the task id, the databricks run id key — present only
when a truthy (nonzero) run id was extracted — and the classification. -/
structure TaskAnalysis where
  task_id : String
  databricks_run_id : Option Nat := none
  root_cause_analysis : ClassificationResult
deriving Repr, DecidableEq

/-- The diagnosis report built by `generate_rca`. -/
structure RCAReport where
  dag_id : String
  run_id : String
  tasks : List TaskAnalysis
deriving Repr, DecidableEq

/-- Return value of `generate_rca`: either the report, or the status dict
`{"status": "No failed tasks found."}`. -/
inductive RCAResult where
  | report (r : RCAReport)
  | status (msg : String)
deriving Repr, DecidableEq

/-- Loop body of `generate_rca` for one failed task: fetch the log at the
task's recorded try number, extract the downstream run id, and — when the
extracted id is truthy (Python `if db_run_id:` is false for both `None`
and `0`) — fetch the downstream output and classify the log followed by
the labelled downstream-error section; otherwise classify the raw log. -/
def analyzeTask (env : Env) (dag_id run_id : String) (task : FailedTask) : TaskAnalysis :=
  let af_log := env.get_task_log dag_id run_id task.task_id task.try_number
  let db_run_id := _extract_run_id af_log
  match db_run_id with
  | some n =>
    if n ≠ 0 then
      let out := env.get_run_output n
      let log_context := af_log ++ "\n--- Databricks Error ---\n" ++ errorTraceOf out
      { task_id := task.task_id, databricks_run_id := some n,
        root_cause_analysis := analyze log_context }
    else
      { task_id := task.task_id, root_cause_analysis := analyze af_log }
  | none =>
    { task_id := task.task_id, root_cause_analysis := analyze af_log }

/-- Embedding of `generate_rca` (`src/tools.py`).  A raising
`get_failed_tasks` call is caught by `airflow_get_failed_tasks` and
becomes the error-marker list `[{"error": ...}]`, which the guard
`if not failed_tasks or (... "error" in failed_tasks[0])` sends to the
same `"No failed tasks found."` status as the empty list. -/
def generate_rca (env : Env) (dag_id run_id : String) : RCAResult :=
  match env.get_failed_tasks dag_id run_id with
  | Except.error _ => RCAResult.status "No failed tasks found."
  | Except.ok [] => RCAResult.status "No failed tasks found."
  | Except.ok tasks =>
    RCAResult.report
      { dag_id := dag_id, run_id := run_id,
        tasks := tasks.map (analyzeTask env dag_id run_id) }

/-- Return value of `rerun_failed_pipeline`, one constructor per return
site: `{"status": "Nothing to rerun."}`, the blocked dict (reason and
task id), the triggered dict (collaborator response), and the trigger
failure dict. -/
inductive RerunResult where
  | nothingToRerun
  | blocked (reason task_id : String)
  | triggered (new_run_details : String)
  | failedTrigger (msg : String)
deriving Repr, DecidableEq

/-- Validation loop of `rerun_failed_pipeline`: walk the report's tasks in
order, evaluating the policy with the hard-coded attempt number 1; return
the reason and task id of the first task whose decision is not allowed. -/
def findBlocked (p : PolicyGuardrails) (dag_id : String) :
    List TaskAnalysis → Option (String × String)
  | [] => none
  | t :: rest =>
    let validation := validate_rerun p dag_id 1 t.root_cause_analysis.root_cause
    if validation.allowed then findBlocked p dag_id rest
    else some (validation.reason, t.task_id)

/-- The expression `rca_report.get("tasks", [])` of
`rerun_failed_pipeline`: the report's tasks, or the empty list when the
diagnosis returned a status dict (which has no `tasks` key). -/
def reportTasks : RCAResult → List TaskAnalysis
  | RCAResult.report r => r.tasks
  | RCAResult.status _ => []

/-- Decision part of `rerun_failed_pipeline`, applied to the diagnosis
report's task list: stop with `Nothing to rerun.` on an empty list,
otherwise validate the tasks in order against the policy and block at the
first denial; only when every task is allowed is the trigger collaborator
invoked (with the audit metadata of the source). -/
def rerunDecide (env : Env) (p : PolicyGuardrails) (dag_id run_id : String)
    (tasks : List TaskAnalysis) : RerunResult :=
  match tasks with
  | [] => RerunResult.nothingToRerun
  | _ :: _ =>
    match findBlocked p dag_id tasks with
    | some (reason, tid) => RerunResult.blocked reason tid
    | none =>
      match env.trigger_dag_run dag_id
          [("rerun_initiator", "mcp_agent"), ("original_run", run_id)] with
      | Except.ok res => RerunResult.triggered res
      | Except.error e => RerunResult.failedTrigger ("Failed to trigger rerun: " ++ e)

/-- Embedding of `rerun_failed_pipeline` (`src/tools.py`): diagnose, take
the report's task list, then decide. -/
def rerun_failed_pipeline (env : Env) (p : PolicyGuardrails)
    (dag_id run_id : String) : RerunResult :=
  rerunDecide env p dag_id run_id (reportTasks (generate_rca env dag_id run_id))

/-- Case-insensitive substring mention test, used to check what a reason
string talks about. -/
def mentionsCI (hay needle : String) : Bool :=
  containsList (needle.data.map Char.toLower) (hay.data.map Char.toLower)

/-- Diagnosis environment with one failed task recorded at attempt 1 and a
log that contains no run id. -/
def envTryA : Env :=
  { get_failed_tasks := fun _ _ => Except.ok [{ task_id := "task_a", try_number := 1 }],
    get_task_log := fun _ _ _ _ => "some plain log",
    get_run_output := fun _ => {},
    trigger_dag_run := fun _ _ => Except.ok "new_run" }

/-- Same environment as `envTryA` except that the failed task's attempt
number is 5. -/
def envTryB : Env :=
  { get_failed_tasks := fun _ _ => Except.ok [{ task_id := "task_a", try_number := 5 }],
    get_task_log := fun _ _ _ _ => "some plain log",
    get_run_output := fun _ => {},
    trigger_dag_run := fun _ _ => Except.ok "new_run" }

/-- Environment whose task log yields an extracted downstream run id of 0. -/
def envZero : Env :=
  { get_failed_tasks := fun _ _ => Except.ok [{ task_id := "t0", try_number := 1 }],
    get_task_log := fun _ _ _ _ => "run_id=0",
    get_run_output := fun _ => { error_trace := some "AccessDeniedException" },
    trigger_dag_run := fun _ _ => Except.ok "new_run" }

/-- Diagnosis environment with one failed step whose log names downstream
run 100235, whose output carries an OOM trace. -/
def envC9 : Env :=
  { get_failed_tasks := fun _ _ => Except.ok [{ task_id := "transform", try_number := 1 }],
    get_task_log := fun _ _ _ _ => "Run ID: 100235",
    get_run_output := fun _ => { error_trace := some "java.lang.OutOfMemoryError" },
    trigger_dag_run := fun _ _ => Except.ok "new_run" }

/-- Environment whose failed-steps collaborator call raises. -/
def envErrC10 : Env :=
  { get_failed_tasks := fun _ _ => Except.error "connection refused",
    get_task_log := fun _ _ _ _ => "",
    get_run_output := fun _ => {},
    trigger_dag_run := fun _ _ => Except.ok "new_run" }

/-- Environment whose run genuinely has zero failed steps. -/
def envEmptyC10 : Env :=
  { get_failed_tasks := fun _ _ => Except.ok [],
    get_task_log := fun _ _ _ _ => "",
    get_run_output := fun _ => {},
    trigger_dag_run := fun _ _ => Except.ok "new_run" }

/-- Diagnosis environment of the end-to-end blocked scenario: one failed
step whose log names downstream run 100235, whose output carries a
schema-mismatch trace. -/
def envC1 : Env :=
  { get_failed_tasks := fun _ _ => Except.ok [{ task_id := "t1", try_number := 1 }],
    get_task_log := fun _ _ _ _ => "Run ID: 100235",
    get_run_output := fun _ =>
      { error_trace := some "AnalysisException: cannot resolve given input columns" },
    trigger_dag_run := fun _ _ => Except.ok "new_run" }

/-! ### Helper lemmas -/

lemma startsWithList_iff (needle hay : List Char) :
    startsWithList needle hay = true ↔ ∃ t, hay = needle ++ t := by
  induction needle generalizing hay with
  | nil => simp [startsWithList]
  | cons c n ih =>
    cases hay with
    | nil => simp [startsWithList]
    | cons d s =>
      simp only [startsWithList, Bool.and_eq_true, decide_eq_true_eq, ih,
        List.cons_append, List.cons.injEq]
      constructor
      · rintro ⟨rfl, t, rfl⟩; exact ⟨t, rfl, rfl⟩
      · rintro ⟨t, rfl, rfl⟩; exact ⟨rfl, t, rfl⟩

lemma containsList_iff (needle hay : List Char) :
    containsList needle hay = true ↔ ∃ s t, hay = s ++ needle ++ t := by
  induction hay with
  | nil =>
    simp only [containsList, startsWithList_iff]
    constructor
    · rintro ⟨t, ht⟩
      exact ⟨[], t, by simpa using ht⟩
    · rintro ⟨s, t, h⟩
      obtain ⟨h1, h2⟩ := List.append_eq_nil.mp h.symm
      obtain ⟨h3, h4⟩ := List.append_eq_nil.mp h1
      exact ⟨[], by simp [h3, h4]⟩
  | cons d s ih =>
    simp only [containsList, Bool.or_eq_true, startsWithList_iff, ih]
    constructor
    · rintro (⟨t, ht⟩ | ⟨s1, t, h⟩)
      · exact ⟨[], t, by simpa using ht⟩
      · exact ⟨d :: s1, t, by simp [h]⟩
    · rintro ⟨s1, t, h⟩
      cases s1 with
      | nil => exact Or.inl ⟨t, by simpa using h⟩
      | cons a s1 =>
        simp only [List.cons_append, List.cons.injEq] at h
        exact Or.inr ⟨s1, t, h.2⟩

lemma firstCatMatch_append_none (pre rest : List (String × List (List RItem)))
    (s : List Char) (hpre : ∀ c ∈ pre, firstPatMatch c.2 s = none) :
    firstCatMatch (pre ++ rest) s = firstCatMatch rest s := by
  induction pre with
  | nil => rfl
  | cons c pre ih =>
    have hc := hpre c (List.mem_cons_self c pre)
    rcases c with ⟨cat, pats⟩
    simp only [List.cons_append, firstCatMatch]
    rw [hc]
    exact ih (fun c' hc' => hpre c' (List.mem_cons_of_mem _ hc'))

lemma rca_patterns_empty_no_match : ∀ c ∈ rca_patterns, firstPatMatch c.2 [] = none := by
  decide

/-! ### C2 — empty allowlist -/

/-- Amended C2: with an empty allowlist, `validate_rerun` denies every
pipeline id at every attempt number and root cause; the reason it returns
is the allowlist non-membership message (not a fail-closed wording). -/
theorem validate_rerun_empty_allowlist (p : PolicyGuardrails)
    (dag_id cause : String) (t : Int) (hempty : p.allowlist_dags = []) :
    validate_rerun p dag_id t cause =
      { allowed := false,
        reason := "DAG '" ++ dag_id ++ "' is not in the allowlist." } := by
  simp [validate_rerun, is_dag_allowed, hempty]

/-- Counterexample to C2 as stated: with an empty allowlist the decision
does deny, but its reason is only the non-membership message; it mentions
none of "fail", "closed", "default", "deny" in any letter case (the
fail-closed wording exists only in the log warning of `is_dag_allowed`,
not in the returned reason). -/
theorem validate_rerun_empty_allowlist_counterexample :
    (validate_rerun { max_reruns := 2, allowlist_dags := [] }
        "gold_sales_daily" 1 "OOM").allowed = false
    ∧ (validate_rerun { max_reruns := 2, allowlist_dags := [] }
        "gold_sales_daily" 1 "OOM").reason =
        "DAG 'gold_sales_daily' is not in the allowlist."
    ∧ mentionsCI (validate_rerun { max_reruns := 2, allowlist_dags := [] }
        "gold_sales_daily" 1 "OOM").reason "fail" = false
    ∧ mentionsCI (validate_rerun { max_reruns := 2, allowlist_dags := [] }
        "gold_sales_daily" 1 "OOM").reason "closed" = false
    ∧ mentionsCI (validate_rerun { max_reruns := 2, allowlist_dags := [] }
        "gold_sales_daily" 1 "OOM").reason "default" = false
    ∧ mentionsCI (validate_rerun { max_reruns := 2, allowlist_dags := [] }
        "gold_sales_daily" 1 "OOM").reason "deny" = false := by
  decide

/-- Witness for the amended C2 at a concrete configuration. -/
theorem validate_rerun_empty_allowlist_witness :
    validate_rerun { max_reruns := 2, allowlist_dags := [] } "gold_sales_daily" 1 "OOM" =
      { allowed := false,
        reason := "DAG 'gold_sales_daily' is not in the allowlist." } :=
  validate_rerun_empty_allowlist
    { max_reruns := 2, allowlist_dags := [] } "gold_sales_daily" "OOM" 1 rfl

/-! ### C4 — attempt budget gate -/

/-- C4: with the allowlist gate passing and the root cause outside the
manual-intervention set, the decision denies exactly when the attempt
number strictly exceeds `max_reruns`; in particular the attempt equal to
`max_reruns` is allowed and `max_reruns + 1` is denied. -/
theorem validate_rerun_attempt_budget (p : PolicyGuardrails)
    (dag_id cause : String)
    (hdag : is_dag_allowed p dag_id = true)
    (hcause : unsafe_causes.contains cause = false) :
    (∀ t : Int, (validate_rerun p dag_id t cause).allowed = false ↔ t > p.max_reruns)
    ∧ (validate_rerun p dag_id p.max_reruns cause).allowed = true
    ∧ (validate_rerun p dag_id (p.max_reruns + 1) cause).allowed = false := by
  have key : ∀ t : Int,
      (validate_rerun p dag_id t cause).allowed = false ↔ t > p.max_reruns := by
    intro t
    have hc' : cause ∉ unsafe_causes := by simpa using hcause
    unfold validate_rerun
    rw [hdag]
    by_cases h : t > p.max_reruns
    · simp [h]
    · simp [h, hc']
  refine ⟨key, ?_, ?_⟩
  · have := key p.max_reruns
    rcases hb : (validate_rerun p dag_id p.max_reruns cause).allowed with _ | _
    · exfalso
      have := this.mp hb
      omega
    · rfl
  · exact (key (p.max_reruns + 1)).mpr (by omega)

/-- Witness for C4 at a concrete configuration (max 2 reruns, attempt 2
allowed, attempt 3 denied). -/
theorem validate_rerun_attempt_budget_witness :
    ((validate_rerun { max_reruns := 2, allowlist_dags := ["g"] } "g" 3 "OOM").allowed = false
      ↔ (3 : Int) > 2)
    ∧ (validate_rerun { max_reruns := 2, allowlist_dags := ["g"] } "g" 2 "OOM").allowed = true
    ∧ (validate_rerun { max_reruns := 2, allowlist_dags := ["g"] } "g" 3 "OOM").allowed = false := by
  have h := validate_rerun_attempt_budget
    { max_reruns := 2, allowlist_dags := ["g"] } "g" "OOM" (by decide) (by decide)
  exact ⟨h.1 3, h.2.1, h.2.2⟩

/-! ### C5 — root cause gate -/

/-- C5: when the allowlist gate passes and the attempt is within budget,
a root cause in the manual-intervention set is denied with the reason
naming that root cause, and a root cause outside the set is allowed with
the affirmative reason. -/
theorem validate_rerun_root_cause_gate (p : PolicyGuardrails)
    (dag_id cause : String) (t : Int)
    (hdag : is_dag_allowed p dag_id = true)
    (ht : t ≤ p.max_reruns) :
    (unsafe_causes.contains cause = true →
      validate_rerun p dag_id t cause =
        { allowed := false,
          reason := "Root cause '" ++ cause ++ "' requires manual intervention." })
    ∧ (unsafe_causes.contains cause = false →
      validate_rerun p dag_id t cause = { allowed := true, reason := "Safe to rerun." }) := by
  constructor
  · intro hc
    unfold validate_rerun
    rw [hdag, hc]
    simp [show ¬ t > p.max_reruns by omega]
  · intro hc
    unfold validate_rerun
    rw [hdag, hc]
    simp [show ¬ t > p.max_reruns by omega]

/-- Witness for C5: SchemaMismatch is denied naming the cause; OOM,
Timeout and Unknown are allowed, at a concrete configuration. -/
theorem validate_rerun_root_cause_gate_witness :
    validate_rerun { max_reruns := 2, allowlist_dags := ["g"] } "g" 1 "SchemaMismatch" =
      { allowed := false,
        reason := "Root cause 'SchemaMismatch' requires manual intervention." }
    ∧ validate_rerun { max_reruns := 2, allowlist_dags := ["g"] } "g" 1 "OOM" =
      { allowed := true, reason := "Safe to rerun." }
    ∧ validate_rerun { max_reruns := 2, allowlist_dags := ["g"] } "g" 1 "Timeout" =
      { allowed := true, reason := "Safe to rerun." }
    ∧ validate_rerun { max_reruns := 2, allowlist_dags := ["g"] } "g" 1 "Unknown" =
      { allowed := true, reason := "Safe to rerun." } := by
  refine ⟨?_, ?_, ?_, ?_⟩
  · exact (validate_rerun_root_cause_gate
      { max_reruns := 2, allowlist_dags := ["g"] } "g" "SchemaMismatch" 1
      (by decide) (by decide)).1 (by decide)
  · exact (validate_rerun_root_cause_gate
      { max_reruns := 2, allowlist_dags := ["g"] } "g" "OOM" 1
      (by decide) (by decide)).2 (by decide)
  · exact (validate_rerun_root_cause_gate
      { max_reruns := 2, allowlist_dags := ["g"] } "g" "Timeout" 1
      (by decide) (by decide)).2 (by decide)
  · exact (validate_rerun_root_cause_gate
      { max_reruns := 2, allowlist_dags := ["g"] } "g" "Unknown" 1
      (by decide) (by decide)).2 (by decide)

/-! ### C6 — delete safety guard -/

/-- C6: `check_safety` rejects a tool name exactly when its lowercasing
contains the substring `delete` — i.e. exactly when the name contains
"delete" in any letter case — independently of the params; every other
name is accepted. -/
theorem check_safety_delete_iff (tool_name : String) (params : List (String × String)) :
    check_safety tool_name params = false ↔
      ∃ s t, tool_name.data.map Char.toLower = s ++ "delete".data ++ t := by
  have hc := containsList_iff ("delete".data) (tool_name.data.map Char.toLower)
  constructor
  · intro hf
    apply hc.mp
    by_contra hb
    have hb' : containsList ("delete".data) (tool_name.data.map Char.toLower) = false := by
      rcases hx : containsList ("delete".data) (tool_name.data.map Char.toLower) with _ | _
      · rfl
      · exact absurd hx hb
    unfold check_safety at hf
    rw [hb'] at hf
    simp at hf
  · intro hex
    have hb : containsList ("delete".data) (tool_name.data.map Char.toLower) = true :=
      hc.mpr hex
    unfold check_safety
    rw [hb]
    simp

/-- Witness for C6: a mixed-case name containing delete is rejected;
names with the other blocked keywords (drop, truncate) are accepted. -/
theorem check_safety_delete_iff_witness :
    check_safety "DeLeTe_job" [] = false
    ∧ check_safety "drop_partition" [] = true
    ∧ check_safety "truncate_table" [] = true := by
  refine ⟨?_, ?_, ?_⟩
  · exact (check_safety_delete_iff "DeLeTe_job" []).mpr
      ⟨[], ['_', 'j', 'o', 'b'], by decide⟩
  · rcases h : check_safety "drop_partition" [] with _ | _
    · exfalso
      obtain ⟨s, t, hst⟩ := (check_safety_delete_iff "drop_partition" []).mp h
      have : containsList ("delete".data) ("drop_partition".data.map Char.toLower) = true :=
        (containsList_iff _ _).mpr ⟨s, t, hst⟩
      exact absurd this (by decide)
    · rfl
  · rcases h : check_safety "truncate_table" [] with _ | _
    · exfalso
      obtain ⟨s, t, hst⟩ := (check_safety_delete_iff "truncate_table" []).mp h
      have : containsList ("delete".data) ("truncate_table".data.map Char.toLower) = true :=
        (containsList_iff _ _).mpr ⟨s, t, hst⟩
      exact absurd this (by decide)
    · rfl

/-! ### C7 — classification is total, with distinguished Unknown cases -/

/-- C7: `analyze` always yields a value (it is a total function); empty
input yields Unknown/Low with the "no logs provided" note, input matching
no pattern yields Unknown/Low with the "no pattern matched" note, the two
notes differ, and every result is either High-confidence or Unknown/Low. -/
theorem analyze_total_unknown_cases :
    analyze "" =
      { root_cause := "Unknown", confidence := "Low",
        details := some "No logs provided for analysis." }
    ∧ (∀ text : String, text ≠ "" → firstCatMatch rca_patterns text.data = none →
        analyze text =
          { root_cause := "Unknown", confidence := "Low",
            details := some "No specific error pattern matched. Manual review required." })
    ∧ ("No logs provided for analysis." : String) ≠
        "No specific error pattern matched. Manual review required."
    ∧ (∀ text : String, (analyze text).confidence = "High"
        ∨ ((analyze text).root_cause = "Unknown" ∧ (analyze text).confidence = "Low")) := by
  refine ⟨rfl, ?_, by decide, ?_⟩
  · intro text hne hnm
    unfold analyze
    rw [if_neg hne, hnm]
  · intro text
    unfold analyze
    by_cases h : text = ""
    · rw [if_pos h]
      exact Or.inr ⟨rfl, rfl⟩
    · rw [if_neg h]
      rcases hm : firstCatMatch rca_patterns text.data with _ | ⟨cat, g0⟩
      · exact Or.inr ⟨rfl, rfl⟩
      · exact Or.inl rfl

/-- Witness for C7: the no-match branch applied at a concrete input that
matches no pattern. -/
theorem analyze_total_unknown_cases_witness :
    analyze "hello world" =
      { root_cause := "Unknown", confidence := "Low",
        details := some "No specific error pattern matched. Manual review required." } :=
  analyze_total_unknown_cases.2.1 "hello world" (by decide) (by decide)

/-! ### C3 — category priority order -/

/-- C3: for any input text on which an earlier-declared category of the
pattern table matches (and no category before it does), `analyze` returns
that category with High confidence, evidence equal to the matched text,
and the recommendation looked up for that category — also when a
later-declared category matches as well, and regardless of where in the
text either signature occurs. -/
theorem analyze_category_priority (text : String)
    (pre mid post : List (String × List (List RItem)))
    (ci cj : String × List (List RItem))
    (hsplit : rca_patterns = pre ++ ci :: mid ++ cj :: post)
    (hpre : ∀ c ∈ pre, firstPatMatch c.2 text.data = none)
    (hci : (firstPatMatch ci.2 text.data).isSome = true)
    (hcj : (firstPatMatch cj.2 text.data).isSome = true) :
    ∃ ev, firstPatMatch ci.2 text.data = some ev ∧
      analyze text =
        { root_cause := ci.1, confidence := "High",
          evidence := some (String.mk ev),
          recommendation := some (_recommend ci.1) } := by
  obtain ⟨ev, hev⟩ := Option.isSome_iff_exists.mp hci
  refine ⟨ev, hev, ?_⟩
  have hne : text ≠ "" := by
    intro h
    have hmem : ci ∈ rca_patterns := by rw [hsplit]; simp
    have hnone := rca_patterns_empty_no_match ci hmem
    have hdata : text.data = [] := by rw [h]
    rw [hdata, hnone] at hev
    cases hev
  have hcat : firstCatMatch rca_patterns text.data = some (ci.1, ev) := by
    rw [hsplit]
    rw [show pre ++ (ci :: mid) ++ (cj :: post) = pre ++ (ci :: (mid ++ cj :: post)) by simp]
    rw [firstCatMatch_append_none pre (ci :: (mid ++ cj :: post)) text.data hpre]
    rcases ci with ⟨cname, cpats⟩
    simp only [firstCatMatch]
    rw [show firstPatMatch (cname, cpats).2 text.data = some ev from hev]
  unfold analyze
  rw [if_neg hne, hcat]

/-- Witness for C3: a log matching both an OOM signature and a Timeout
signature — with the Timeout signature occurring first in the text — is
classified as OOM, the category declared earlier in the table. -/
theorem analyze_category_priority_witness :
    ∃ ev, firstPatMatch
        [lits "java" ++ [RItem.anyc] ++ lits "lang" ++ [RItem.anyc] ++
           lits "OutOfMemoryError",
         lits "Container killed by YARN for exceeding memory limits",
         lits "ExecutorLostFailure",
         lits "Total size of serialized results" ++ [RItem.starAny] ++
           lits "is bigger than"]
        ("TimeoutException before ExecutorLostFailure").data = some ev ∧
      analyze "TimeoutException before ExecutorLostFailure" =
        { root_cause := "OOM", confidence := "High",
          evidence := some (String.mk ev),
          recommendation := some (_recommend "OOM") } :=
  analyze_category_priority "TimeoutException before ExecutorLostFailure"
    [("SchemaMismatch",
       [lits "AnalysisException: cannot resolve",
        lits "AnalysisException:" ++ [RItem.starAny] ++ lits "column" ++
          [RItem.starAny] ++ lits "not found",
        lits "Schema variance detected"])]
    [("Permissions",
       [lits "AccessDeniedException",
        lits "403 Forbidden",
        lits "does not have permission"]),
     ("DataQuality",
       [lits "Constraint violation",
        lits "NullPointerException" ++ [RItem.starAny] ++ lits "input row"])]
    []
    ("OOM",
      [lits "java" ++ [RItem.anyc] ++ lits "lang" ++ [RItem.anyc] ++
         lits "OutOfMemoryError",
       lits "Container killed by YARN for exceeding memory limits",
       lits "ExecutorLostFailure",
       lits "Total size of serialized results" ++ [RItem.starAny] ++
         lits "is bigger than"])
    ("Timeout",
      [lits "TimeoutException",
       lits "Heartbeat missing"])
    rfl (by decide) (by decide) (by decide)

/-! ### C8 — run-id extractor -/

lemma gdOne_tail {it : RItem} {rest : List RItem} {cap : Option (List Char)}
    (hne : it ≠ RItem.gdOne)
    (hm : RItem.gdOne ∈ it :: rest ∨ cap.isSome = true) :
    RItem.gdOne ∈ rest ∨ cap.isSome = true := by
  rcases hm with hm | hm
  · rcases List.mem_cons.mp hm with he | hmm
    · exact absurd he.symm hne
    · exact Or.inl hmm
  · exact Or.inr hm

/-- If an anchored match succeeds and the pattern contains the digit-group
opener (or a capture was already in progress), the final capture is
present. -/
lemma matchFuel_capture_isSome :
    ∀ (fuel : Nat) (items : List RItem) (s : List Char) (cap : Option (List Char))
      (rem : List Char) (c : Option (List Char)),
      matchFuel fuel items s cap = some (rem, c) →
      (RItem.gdOne ∈ items ∨ cap.isSome = true) → c.isSome = true := by
  intro fuel
  induction fuel with
  | zero =>
    intro items s cap rem c h hm
    simp [matchFuel] at h
  | succ f ih =>
    intro items s cap rem c h hm
    cases items with
    | nil =>
      simp only [matchFuel, Option.some.injEq, Prod.mk.injEq] at h
      obtain ⟨rfl, rfl⟩ := h
      rcases hm with hm | hm
      · simp at hm
      · exact hm
    | cons it rest =>
      cases it with
      | chr ch =>
        cases s with
        | nil => simp [matchFuel] at h
        | cons d s' =>
          simp only [matchFuel] at h
          by_cases hcc : ch.toLower = d.toLower
          · rw [if_pos hcc] at h
            exact ih rest s' cap rem c h (gdOne_tail (by simp) hm)
          · rw [if_neg hcc] at h
            cases h
      | anyc =>
        cases s with
        | nil => simp [matchFuel] at h
        | cons d s' =>
          simp only [matchFuel] at h
          exact ih rest s' cap rem c h (gdOne_tail (by simp) hm)
      | starAny =>
        cases s with
        | nil =>
          simp only [matchFuel] at h
          exact ih rest [] cap rem c h (gdOne_tail (by simp) hm)
        | cons d s' =>
          simp only [matchFuel] at h
          rcases hin : matchFuel f (RItem.starAny :: rest) s' cap with _ | r
          · rw [hin] at h
            simp only [] at h
            exact ih rest (d :: s') cap rem c h (gdOne_tail (by simp) hm)
          · rcases r with ⟨rem', c'⟩
            rw [hin] at h
            simp only [Option.some.injEq, Prod.mk.injEq] at h
            obtain ⟨rfl, rfl⟩ := h
            exact ih (RItem.starAny :: rest) s' cap rem' c' hin hm
      | oneCls cs neg =>
        cases s with
        | nil => simp [matchFuel] at h
        | cons d s' =>
          simp only [matchFuel] at h
          by_cases hcc : inCls d cs neg = true
          · rw [if_pos hcc] at h
            exact ih rest s' cap rem c h (gdOne_tail (by simp) hm)
          · rw [if_neg (by simpa using hcc)] at h
            cases h
      | starCls cs neg =>
        cases s with
        | nil =>
          simp only [matchFuel] at h
          exact ih rest [] cap rem c h (gdOne_tail (by simp) hm)
        | cons d s' =>
          simp only [matchFuel] at h
          by_cases hcc : inCls d cs neg = true
          · rw [if_pos hcc] at h
            rcases hin : matchFuel f (RItem.starCls cs neg :: rest) s' cap with _ | r
            · rw [hin] at h
              simp only [] at h
              exact ih rest (d :: s') cap rem c h (gdOne_tail (by simp) hm)
            · rcases r with ⟨rem', c'⟩
              rw [hin] at h
              simp only [Option.some.injEq, Prod.mk.injEq] at h
              obtain ⟨rfl, rfl⟩ := h
              exact ih (RItem.starCls cs neg :: rest) s' cap rem' c' hin hm
          · rw [if_neg (by simpa using hcc)] at h
            exact ih rest (d :: s') cap rem c h (gdOne_tail (by simp) hm)
      | gdOne =>
        cases s with
        | nil => simp [matchFuel] at h
        | cons d s' =>
          simp only [matchFuel] at h
          by_cases hcc : d.isDigit = true
          · rw [if_pos hcc] at h
            exact ih rest s' (some (cap.getD [] ++ [d])) rem c h (Or.inr rfl)
          · rw [if_neg (by simpa using hcc)] at h
            cases h
      | gdStar =>
        cases s with
        | nil =>
          simp only [matchFuel] at h
          exact ih rest [] cap rem c h (gdOne_tail (by simp) hm)
        | cons d s' =>
          simp only [matchFuel] at h
          by_cases hcc : d.isDigit = true
          · rw [if_pos hcc] at h
            rcases hin : matchFuel f (RItem.gdStar :: rest) s' (some (cap.getD [] ++ [d]))
                with _ | r
            · rw [hin] at h
              simp only [] at h
              exact ih rest (d :: s') cap rem c h (gdOne_tail (by simp) hm)
            · rcases r with ⟨rem', c'⟩
              rw [hin] at h
              simp only [Option.some.injEq, Prod.mk.injEq] at h
              obtain ⟨rfl, rfl⟩ := h
              exact ih (RItem.gdStar :: rest) s' (some (cap.getD [] ++ [d])) rem' c' hin
                (Or.inr rfl)
          · rw [if_neg (by simpa using hcc)] at h
            exact ih rest (d :: s') cap rem c h (gdOne_tail (by simp) hm)

lemma matchAt_capture_isSome (p : List RItem) (s g0 : List Char)
    (c : Option (List Char)) (hg : RItem.gdOne ∈ p)
    (h : matchAt p s = some (g0, c)) : c.isSome = true := by
  unfold matchAt at h
  rcases hin : matchFuel ((s.length + 1) * (p.length + 1)) p s none with _ | r
  · rw [hin] at h
    cases h
  · rcases r with ⟨rem, cap⟩
    rw [hin] at h
    simp only [Option.some.injEq, Prod.mk.injEq] at h
    obtain ⟨rfl, rfl⟩ := h
    exact matchFuel_capture_isSome _ p s none rem cap hin (Or.inl hg)

lemma searchGroups_capture_isSome (p : List RItem) (hg : RItem.gdOne ∈ p) :
    ∀ (s g0 : List Char) (c : Option (List Char)),
      searchGroups p s = some (g0, c) → c.isSome = true := by
  intro s
  induction s with
  | nil =>
    intro g0 c h
    simp only [searchGroups] at h
    exact matchAt_capture_isSome p [] g0 c hg h
  | cons d s' ih =>
    intro g0 c h
    simp only [searchGroups] at h
    rcases hin : matchAt p (d :: s') with _ | r
    · rw [hin] at h
      simp only [] at h
      exact ih g0 c h
    · rcases r with ⟨g0', c'⟩
      rw [hin] at h
      simp only [Option.some.injEq, Prod.mk.injEq] at h
      obtain ⟨rfl, rfl⟩ := h
      exact matchAt_capture_isSome p (d :: s') g0' c' hg hin

lemma extract_patterns_have_group : ∀ p ∈ extract_patterns, RItem.gdOne ∈ p := by
  decide

lemma firstCapMatch_append_none (pre rest : List (List RItem)) (s : List Char)
    (hpre : ∀ q ∈ pre, searchGroups q s = none) :
    firstCapMatch (pre ++ rest) s = firstCapMatch rest s := by
  induction pre with
  | nil => rfl
  | cons q pre ih =>
    have hq := hpre q (List.mem_cons_self q pre)
    simp only [List.cons_append, firstCapMatch]
    rw [hq]
    exact ih (fun q' hq' => hpre q' (List.mem_cons_of_mem _ hq'))

lemma firstCapMatch_none_of_all_none (pats : List (List RItem)) (s : List Char)
    (hall : ∀ q ∈ pats, searchGroups q s = none) :
    firstCapMatch pats s = none := by
  have := firstCapMatch_append_none pats [] s hall
  simpa using this

lemma firstCapMatch_some_of_match (pats : List (List RItem)) (s : List Char)
    (hgd : ∀ q ∈ pats, RItem.gdOne ∈ q)
    (hex : ¬ ∀ q ∈ pats, searchGroups q s = none) :
    ∃ cap, firstCapMatch pats s = some (some cap) := by
  induction pats with
  | nil => simp at hex
  | cons q pats ih =>
    rcases hq : searchGroups q s with _ | r
    · simp only [firstCapMatch]
      rw [hq]
      apply ih (fun q' hq' => hgd q' (List.mem_cons_of_mem _ hq'))
      intro hall
      exact hex (by
        intro q' hq'
        rcases List.mem_cons.mp hq' with rfl | hmm
        · exact hq
        · exact hall q' hmm)
    · rcases r with ⟨g0, c⟩
      have hc := searchGroups_capture_isSome q (hgd q (List.mem_cons_self q pats)) s g0 c hq
      obtain ⟨cap, rfl⟩ := Option.isSome_iff_exists.mp hc
      exact ⟨cap, by simp only [firstCapMatch]; rw [hq]⟩

/-- C8: `_extract_run_id` tries its patterns in declared order and returns
the integer value of the digit group captured by the first pattern that
matches anywhere in the text — even when later patterns would also match —
and it returns no value exactly when none of the patterns matches. -/
theorem extract_run_id_first_pattern_wins :
    (∀ (text : String) (pre post : List (List RItem)) (p : List RItem)
        (g0 cap : List Char),
      extract_patterns = pre ++ p :: post →
      (∀ q ∈ pre, searchGroups q text.data = none) →
      searchGroups p text.data = some (g0, some cap) →
      _extract_run_id text = some (digitsVal cap))
    ∧ (∀ text : String, _extract_run_id text = none ↔
        ∀ q ∈ extract_patterns, searchGroups q text.data = none) := by
  constructor
  · intro text pre post p g0 cap hsplit hpre hp
    unfold _extract_run_id
    rw [hsplit, firstCapMatch_append_none pre (p :: post) text.data hpre]
    simp only [firstCapMatch]
    rw [hp]
  · intro text
    constructor
    · intro hnone
      by_contra hex
      obtain ⟨cap, hcap⟩ := firstCapMatch_some_of_match extract_patterns text.data
        extract_patterns_have_group hex
      unfold _extract_run_id at hnone
      rw [hcap] at hnone
      cases hnone
    · intro hall
      unfold _extract_run_id
      rw [firstCapMatch_none_of_all_none extract_patterns text.data hall]

/-- Witness for C8: in a text where both the second pattern (`Run ID: 123`)
and the third pattern (`Submitted run 456`) match, the first matching
pattern in declared order wins, giving 123; and a text matching no
pattern gives no value. -/
theorem extract_run_id_first_pattern_wins_witness :
    _extract_run_id "Run ID: 123 and Submitted run 456" = some (digitsVal ['1', '2', '3'])
    ∧ (_extract_run_id "no identifiers here" = none ↔
        ∀ q ∈ extract_patterns, searchGroups q ("no identifiers here").data = none) := by
  constructor
  · exact extract_run_id_first_pattern_wins.1 "Run ID: 123 and Submitted run 456"
      [lits "run_id" ++
         [RItem.oneCls clsEqColonSpace false, RItem.starCls clsEqColonSpace false] ++
         groupDigitsItems]
      [lits "Submitted run" ++ [RItem.starCls clsDigits true] ++ groupDigitsItems,
       lits "databricks run now response" ++ [RItem.starAny] ++ lits "run_id" ++
         [RItem.oneCls clsQuoteColonWs false, RItem.starCls clsQuoteColonWs false] ++
         groupDigitsItems]
      (lits "Run ID" ++
         [RItem.oneCls clsEqColonSpace false, RItem.starCls clsEqColonSpace false] ++
         groupDigitsItems)
      ("Run ID: 123".data) (['1', '2', '3']) rfl (by decide) (by decide)
  · exact extract_run_id_first_pattern_wins.2 "no identifiers here"

/-! ### C9 — diagnosis report entries -/

/-- Amended C9: for every failed step returned by the collaborator,
`generate_rca` appends exactly one task entry in the collaborator's order;
the entry carries the step id, the downstream run id when a truthy
(nonzero) one was extracted, and the classification result — the step's
attempt number is not part of the entry — and when a truthy downstream
run id was extracted, the classification input is the step's log text
followed by the labelled downstream-error section containing the
job-runner output, not the raw log alone. -/
theorem generate_rca_report_entries (env : Env) (dag_id run_id : String)
    (ts : List FailedTask) (hne : ts ≠ [])
    (hft : env.get_failed_tasks dag_id run_id = Except.ok ts) :
    generate_rca env dag_id run_id =
      RCAResult.report
        { dag_id := dag_id, run_id := run_id,
          tasks := ts.map (analyzeTask env dag_id run_id) }
    ∧ (∀ (task : FailedTask) (n : Nat),
        _extract_run_id (env.get_task_log dag_id run_id task.task_id task.try_number)
          = some n → n ≠ 0 →
        analyzeTask env dag_id run_id task =
          { task_id := task.task_id, databricks_run_id := some n,
            root_cause_analysis := analyze
              (env.get_task_log dag_id run_id task.task_id task.try_number ++
                "\n--- Databricks Error ---\n" ++
                errorTraceOf (env.get_run_output n)) })
    ∧ (∀ task : FailedTask,
        _extract_run_id (env.get_task_log dag_id run_id task.task_id task.try_number)
          = none →
        analyzeTask env dag_id run_id task =
          { task_id := task.task_id, databricks_run_id := none,
            root_cause_analysis := analyze
              (env.get_task_log dag_id run_id task.task_id task.try_number) }) := by
  refine ⟨?_, ?_, ?_⟩
  · unfold generate_rca
    rw [hft]
    cases ts with
    | nil => exact absurd rfl hne
    | cons t ts' => rfl
  · intro task n hex hn0
    simp [analyzeTask, hex, hn0]
  · intro task hex
    simp [analyzeTask, hex]

/-- Counterexample to C9 as stated.  First: two runs whose only difference
is the failed step's attempt number (1 versus 5) produce identical
reports, so the report entry does not carry the attempt number.  Second:
a log from which the run id 0 is extracted produces an entry with no
downstream run id and a classification of the raw log alone (Python's
`if db_run_id:` treats the extracted 0 as false), so "downstream run id
if one was extracted" also fails for the extracted id 0. -/
theorem generate_rca_report_entries_counterexample :
    generate_rca envTryA "d" "r" = generate_rca envTryB "d" "r"
    ∧ envTryA.get_failed_tasks "d" "r"
        = Except.ok [{ task_id := "task_a", try_number := 1 }]
    ∧ envTryB.get_failed_tasks "d" "r"
        = Except.ok [{ task_id := "task_a", try_number := 5 }]
    ∧ _extract_run_id "run_id=0" = some 0
    ∧ generate_rca envZero "d" "r" =
        RCAResult.report
          { dag_id := "d", run_id := "r",
            tasks := [{ task_id := "t0", databricks_run_id := none,
                        root_cause_analysis := analyze "run_id=0" }] } :=
  ⟨rfl, rfl, rfl, by decide, rfl⟩

/-- Witness for the amended C9 at the concrete environment `envC9`. -/
theorem generate_rca_report_entries_witness :
    generate_rca envC9 "gold_sales_daily" "run_2024_06_15" =
      RCAResult.report
        { dag_id := "gold_sales_daily", run_id := "run_2024_06_15",
          tasks := [{ task_id := "transform", try_number := 1 : FailedTask }].map
            (analyzeTask envC9 "gold_sales_daily" "run_2024_06_15") }
    ∧ analyzeTask envC9 "gold_sales_daily" "run_2024_06_15"
        { task_id := "transform", try_number := 1 } =
      { task_id := "transform", databricks_run_id := some 100235,
        root_cause_analysis := analyze
          ("Run ID: 100235" ++ "\n--- Databricks Error ---\n" ++
            "java.lang.OutOfMemoryError") } := by
  have h := generate_rca_report_entries envC9 "gold_sales_daily" "run_2024_06_15"
    [{ task_id := "transform", try_number := 1 }] (by decide) rfl
  refine ⟨h.1, ?_⟩
  have h2 := h.2.1 { task_id := "transform", try_number := 1 } 100235 (by decide) (by decide)
  exact h2

/-! ### C10 — collaborator failure is indistinguishable from zero failures -/

/-- C10: when the failed-steps collaborator call raises, `generate_rca`
returns the same `No failed tasks found.` status as when the run has zero
failed steps; in both cases the subsequent rerun reports
`Nothing to rerun.` rather than an error. -/
theorem failed_tasks_error_indistinguishable (env1 env2 : Env)
    (p : PolicyGuardrails) (dag_id run_id e : String)
    (h1 : env1.get_failed_tasks dag_id run_id = Except.error e)
    (h2 : env2.get_failed_tasks dag_id run_id = Except.ok []) :
    generate_rca env1 dag_id run_id = RCAResult.status "No failed tasks found."
    ∧ generate_rca env2 dag_id run_id = RCAResult.status "No failed tasks found."
    ∧ rerun_failed_pipeline env1 p dag_id run_id = RerunResult.nothingToRerun
    ∧ rerun_failed_pipeline env2 p dag_id run_id = RerunResult.nothingToRerun := by
  have g1 : generate_rca env1 dag_id run_id = RCAResult.status "No failed tasks found." := by
    unfold generate_rca
    rw [h1]
  have g2 : generate_rca env2 dag_id run_id = RCAResult.status "No failed tasks found." := by
    unfold generate_rca
    rw [h2]
  refine ⟨g1, g2, ?_, ?_⟩
  · unfold rerun_failed_pipeline
    rw [g1]
    rfl
  · unfold rerun_failed_pipeline
    rw [g2]
    rfl

/-- Witness for C10 at concrete environments. -/
theorem failed_tasks_error_indistinguishable_witness :
    generate_rca envErrC10 "d" "r" = RCAResult.status "No failed tasks found."
    ∧ generate_rca envEmptyC10 "d" "r" = RCAResult.status "No failed tasks found."
    ∧ rerun_failed_pipeline envErrC10 { max_reruns := 2, allowlist_dags := ["d"] } "d" "r"
        = RerunResult.nothingToRerun
    ∧ rerun_failed_pipeline envEmptyC10 { max_reruns := 2, allowlist_dags := ["d"] } "d" "r"
        = RerunResult.nothingToRerun :=
  failed_tasks_error_indistinguishable envErrC10 envEmptyC10
    { max_reruns := 2, allowlist_dags := ["d"] } "d" "r" "connection refused" rfl rfl

/-! ### C1 — rerun blocks at the first denied task -/

lemma findBlocked_append_allowed (p : PolicyGuardrails) (dag_id : String)
    (pre rest : List TaskAnalysis)
    (hpre : ∀ t' ∈ pre,
      (validate_rerun p dag_id 1 t'.root_cause_analysis.root_cause).allowed = true) :
    findBlocked p dag_id (pre ++ rest) = findBlocked p dag_id rest := by
  induction pre with
  | nil => rfl
  | cons a pre ih =>
    have ha := hpre a (List.mem_cons_self a pre)
    simp only [List.cons_append, findBlocked, ha, if_true]
    exact ih (fun t' ht' => hpre t' (List.mem_cons_of_mem _ ht'))

lemma rerunDecide_blocked (env : Env) (p : PolicyGuardrails)
    (dag_id run_id : String) (pre post : List TaskAnalysis) (t : TaskAnalysis)
    (hpre : ∀ t' ∈ pre,
      (validate_rerun p dag_id 1 t'.root_cause_analysis.root_cause).allowed = true)
    (ht : (validate_rerun p dag_id 1 t.root_cause_analysis.root_cause).allowed = false) :
    rerunDecide env p dag_id run_id (pre ++ t :: post)
      = RerunResult.blocked
          (validate_rerun p dag_id 1 t.root_cause_analysis.root_cause).reason
          t.task_id := by
  have hfb : findBlocked p dag_id (pre ++ t :: post)
      = some ((validate_rerun p dag_id 1 t.root_cause_analysis.root_cause).reason,
              t.task_id) := by
    rw [findBlocked_append_allowed p dag_id pre (t :: post) hpre]
    simp [findBlocked, ht]
  cases pre with
  | nil =>
    simp only [List.nil_append] at hfb ⊢
    simp only [rerunDecide]
    rw [hfb]
  | cons a pre' =>
    simp only [List.cons_append] at hfb ⊢
    simp only [rerunDecide]
    rw [hfb]

/-- C1: when the diagnosis report's tasks are validated in report order and
some task is the first whose policy decision is not allowed, the rerun
workflow returns the blocked outcome carrying that task's id and that
decision's reason verbatim — for every behaviour of the rerun-trigger
collaborator and every list of later tasks, so no later task is evaluated
and the trigger operation is never invoked. -/
theorem rerun_blocks_at_first_denied (env : Env) (p : PolicyGuardrails)
    (dag_id run_id : String) (r : RCAReport)
    (pre post : List TaskAnalysis) (t : TaskAnalysis)
    (hrep : generate_rca env dag_id run_id = RCAResult.report r)
    (hsplit : r.tasks = pre ++ t :: post)
    (hpre : ∀ t' ∈ pre,
      (validate_rerun p dag_id 1 t'.root_cause_analysis.root_cause).allowed = true)
    (ht : (validate_rerun p dag_id 1 t.root_cause_analysis.root_cause).allowed = false) :
    ∀ trig : String → List (String × String) → Except String String,
      rerun_failed_pipeline { env with trigger_dag_run := trig } p dag_id run_id
        = RerunResult.blocked
            (validate_rerun p dag_id 1 t.root_cause_analysis.root_cause).reason
            t.task_id := by
  intro trig
  have hrep' : generate_rca { env with trigger_dag_run := trig } dag_id run_id
      = RCAResult.report r := hrep
  unfold rerun_failed_pipeline
  rw [hrep']
  rw [show reportTasks (RCAResult.report r) = r.tasks from rfl, hsplit]
  exact rerunDecide_blocked _ p dag_id run_id pre post t hpre ht

/-- Witness for C1: with the pipeline allowlisted and the attempt within
budget, the SchemaMismatch classification makes the rerun return the
blocked outcome with the root-cause reason and the task id, for a
concrete trigger collaborator (whose response is never used). -/
theorem rerun_blocks_at_first_denied_witness :
    rerun_failed_pipeline
        { envC1 with trigger_dag_run := fun _ _ => Except.ok "unused" }
        { max_reruns := 2, allowlist_dags := ["gold_sales_daily"] }
        "gold_sales_daily" "run_2024_06_15"
      = RerunResult.blocked
          "Root cause 'SchemaMismatch' requires manual intervention." "t1" := by
  have h := rerun_blocks_at_first_denied envC1
    { max_reruns := 2, allowlist_dags := ["gold_sales_daily"] }
    "gold_sales_daily" "run_2024_06_15"
    { dag_id := "gold_sales_daily", run_id := "run_2024_06_15",
      tasks := [analyzeTask envC1 "gold_sales_daily" "run_2024_06_15"
        { task_id := "t1", try_number := 1 }] }
    [] []
    (analyzeTask envC1 "gold_sales_daily" "run_2024_06_15"
      { task_id := "t1", try_number := 1 })
    rfl rfl (by intro t' ht'; cases ht') (by decide)
    (fun _ _ => Except.ok "unused")
  exact h.trans (by decide)
